import Mathlib

/-!
Shallow embedding of the pymongo-env repository (DirectEmployers/pymongo-env).

The repository is a configuration overlay for MongoDB: a process-wide mutable
triple (mongo_cn, mongo_dbname, mongo_ssl) describing the active connection
target, a settings module shared with the rest of the process, a connector
that opens a client and pings it, a scope manager (db_access / production_access)
that temporarily redirects the target and restores it on exit, and a test
mixin (MongoTestMixin) guarding against running tests on populated collections.

Python values read from the settings module are modelled by Val (strings and
booleans suffice for every key the code touches); the settings module is a
partial map from attribute names to Val; getattr on a missing attribute is an
attributeError; the module globals plus the settings module form ModState.
The external MongoClient + ping is an oracle deciding, from the exact
arguments the code passes, whether connecting succeeds.
-/

/-- A Python value stored in the settings module or in the module globals:
the code only ever stores strings (addresses, database names) and booleans
(the ssl flag). -/
inductive Val where
  | vstr : String → Val
  | vbool : Bool → Val
  deriving DecidableEq, Repr

/-- Python truthiness of a Val, as used by `if mongo_ssl:` in connect_db. -/
def Val.truthy : Val → Bool
  | .vstr s => s ≠ ""
  | .vbool b => b

/-- String form of a Val, used when building a collection full name. -/
def Val.asStr : Val → String
  | .vstr s => s
  | .vbool b => if b then "True" else "False"

/-- The attribute map of the settings module: some key may be absent. -/
def Settings : Type := String → Option Val

/-- Errors the embedded code can raise.  attributeError is Python's
AttributeError from getattr on a missing settings key (the spec's
ConfigurationError); connectionError is a failure of the MongoClient open or
the ping liveness check (the spec's ConnectionError); unboundLocalError is
Python's UnboundLocalError; testFailure is the fatal abort raised by
MongoTestMixin.setUp via self.fail, carrying the connection description and
the per-collection document counts it reports. -/
inductive PyErr where
  | attributeError (key : String)
  | connectionError
  | unboundLocalError (name : String)
  | testFailure (accessRepr : String) (counts : List (String × Nat))
  deriving DecidableEq, Repr

/-- The process-wide state the code mutates: the three module globals of
pymongoenv plus the settings module it writes back into. -/
structure ModState where
  mongo_cn : Val
  mongo_dbname : Val
  mongo_ssl : Val
  settings : Settings

/-- change_db (src/pymongoenv/__init__.py lines 19-32): replaces the three
module globals and writes MONGO_SSL, MONGO_HOST and MONGO_DBNAME back into
the settings module.  It does not touch any other settings key; in
particular it never writes MONGO_CN. -/
def change_db (cn dbname sslv : Val) (st : ModState) : ModState :=
  { mongo_cn := cn
    mongo_dbname := dbname
    mongo_ssl := sslv
    settings := fun k =>
      if k = "MONGO_SSL" then some sslv
      else if k = "MONGO_HOST" then some cn
      else if k = "MONGO_DBNAME" then some dbname
      else st.settings k }

/-- The transport-security argument values the code can pass: ssl.CERT_NONE,
or the other two members of the ssl module's certificate-requirement enum
(never produced by this code, present so the claim about the mapping is a
statement over the full enum). -/
inductive SslCertReq where
  | CERT_NONE
  | CERT_OPTIONAL
  | CERT_REQUIRED
  deriving DecidableEq, Repr

/-- connect_db lines 47-51: `if mongo_ssl: ssl_req = ssl.CERT_NONE else:
ssl_req = None`.  none models passing ssl_cert_reqs=None. -/
def ssl_req_of (mongoSsl : Val) : Option SslCertReq :=
  if mongoSsl.truthy then some SslCertReq.CERT_NONE else none

/-- Whether an ssl_cert_reqs argument requests any certificate
verification: only CERT_OPTIONAL and CERT_REQUIRED do; CERT_NONE and an
absent argument do not. -/
def requestsCertVerification : Option SslCertReq → Bool
  | some SslCertReq.CERT_OPTIONAL => true
  | some SslCertReq.CERT_REQUIRED => true
  | _ => false

/-- The exact keyword arguments connect_db passes to MongoClient
(lines 53-58): the address, w="majority", connect=True, and ssl_cert_reqs. -/
structure ClientArgs where
  host : Val
  w : String
  connectNow : Bool
  ssl_cert_reqs : Option SslCertReq
  deriving DecidableEq, Repr

/-- DbAccess (lines 69-76): holds the client and the database reference;
in the embedding the client is identified by the arguments it was opened
with and the database by its name. -/
structure DbAccess where
  clientArgs : ClientArgs
  dbname : Val
  deriving DecidableEq, Repr

/-- The external MongoClient open combined with the ping liveness check
(lines 53-63): an oracle deciding, from the arguments passed and the
database name, whether the whole step succeeds. -/
def ConnOracle : Type := ClientArgs → Val → Bool

/-- connect_db (lines 35-67): reads the active target from the module
globals, computes ssl_cert_reqs from mongo_ssl, opens the client with
(mongo_cn, w="majority", connect=True, ssl_cert_reqs) and pings the database;
on success returns a DbAccess, otherwise the ConnectionError surfaces. -/
def connect_db (oracle : ConnOracle) (st : ModState) : Except PyErr DbAccess :=
  let args : ClientArgs :=
    { host := st.mongo_cn
      w := "majority"
      connectNow := true
      ssl_cert_reqs := ssl_req_of st.mongo_ssl }
  if oracle args st.mongo_dbname then
    Except.ok { clientArgs := args, dbname := st.mongo_dbname }
  else
    Except.error PyErr.connectionError

/-- Outcomes are compared in witnesses, so equality of Except values must
be decidable. -/
instance exceptDecEq {ε α : Type} [DecidableEq ε] [DecidableEq α] :
    DecidableEq (Except ε α) := fun x y =>
  match x, y with
  | Except.ok a, Except.ok b =>
    if h : a = b then isTrue (by rw [h])
    else isFalse (fun hc => h (Except.ok.inj hc))
  | Except.error a, Except.error b =>
    if h : a = b then isTrue (by rw [h])
    else isFalse (fun hc => h (Except.error.inj hc))
  | Except.ok _, Except.error _ => isFalse (fun hc => Except.noConfusion hc)
  | Except.error _, Except.ok _ => isFalse (fun hc => Except.noConfusion hc)

/-- Python getattr on the settings module: AttributeError when absent. -/
def getattr_s (s : Settings) (key : String) : Except PyErr Val :=
  match s key with
  | some v => Except.ok v
  | none => Except.error (PyErr.attributeError key)

/-- db_access lines 106-110: the snapshot of the old address, taken from
settings.MONGO_CN when present, else settings.MONGO_HOST. -/
def snapshot_old_host (s : Settings) : Except PyErr Val :=
  match s "MONGO_CN" with
  | some v => Except.ok v
  | none => getattr_s s "MONGO_HOST"

/-- db_access lines 112-115: resolution of the new address for a settings
prefix, from the cluster-style key when present, else from the host-style
key; AttributeError when both are absent. -/
def resolve_new_cn (s : Settings) (pfx : String) : Except PyErr Val :=
  match s (pfx ++ "_MONGO_CN") with
  | some v => Except.ok v
  | none => getattr_s s (pfx ++ "_MONGO_HOST")

/-- The caller's with-block: given the yielded DbAccess and the state at the
yield point, it may mutate the state and either return a value or raise. -/
def Block (α : Type) : Type := DbAccess → ModState → ModState × Except PyErr α

/-- db_access (src/pymongoenv/__init__.py lines 93-127) as a state
transformer over the block it scopes.  Faithful to the source, order
included: snapshot old_host (settings.MONGO_CN, else settings.MONGO_HOST),
read old_dbname, resolve new_cn (cluster key over host key), read
new_dbname — each lookup raising AttributeError before any mutation when
its key is missing; then, inside try, change_db to the new triple and
connect.  In the source the local variable named db_access is first bound
by the assignment after connect_db(), so when connect_db raises, the
finally block's first statement reads an unbound local: Python raises
UnboundLocalError there, masking the ConnectionError, and the restoring
change_db(old_host, old_dbname, ssl) is never reached — the state stays at
the override.  When connect succeeds, the block runs, and the finally block
closes the client and calls change_db(old_host, old_dbname, ssl) — ssl
being the override parameter, not a saved prior flag — before the block's
outcome (value or exception) propagates. -/
def run_db_access (pfx : String) (sslv : Val) (oracle : ConnOracle)
    (block : Block α) (st : ModState) : ModState × Except PyErr α :=
  match snapshot_old_host st.settings with
  | Except.error e => (st, Except.error e)
  | Except.ok old_host =>
    match getattr_s st.settings "MONGO_DBNAME" with
    | Except.error e => (st, Except.error e)
    | Except.ok old_dbname =>
      match resolve_new_cn st.settings pfx with
      | Except.error e => (st, Except.error e)
      | Except.ok new_cn =>
        match getattr_s st.settings (pfx ++ "_MONGO_DBNAME") with
        | Except.error e => (st, Except.error e)
        | Except.ok new_dbname =>
          let st1 := change_db new_cn new_dbname sslv st
          match connect_db oracle st1 with
          | Except.error _ =>
            (st1, Except.error (PyErr.unboundLocalError "db_access"))
          | Except.ok access =>
            let res := block access st1
            (change_db old_host old_dbname sslv res.1, res.2)

/-- production_access (lines 79-90): `with db_access('PRODUCTION', True) as
access: yield access` — it delegates to db_access with prefix "PRODUCTION"
and ssl True and re-yields the same access to its own caller's block. -/
def run_production_access (oracle : ConnOracle) (block : Block α)
    (st : ModState) : ModState × Except PyErr α :=
  run_db_access "PRODUCTION" (Val.vbool true) oracle
    (fun access st1 => block access st1) st

/-- Modelled from the spec's words for the refinement claim:
`with_production()` is `with_environment("PRODUCTION", secure_override=true)`,
i.e. db_access applied to prefix "PRODUCTION" and ssl True, with the caller's
block scoped directly by it. -/
def spec_with_production (oracle : ConnOracle) (block : Block α)
    (st : ModState) : ModState × Except PyErr α :=
  run_db_access "PRODUCTION" (Val.vbool true) oracle block st

/-! ## The test mixin (src/pymongoenv/tests.py) -/

/-- The secrets module consumed by MongoTestMixin.setUp: the designated test
connection triple. -/
structure Secrets where
  test_mongo_cn : Val
  test_mongo_dbname : Val
  test_mongo_ssl : Val

/-- The contents of the database the mixin connects to, as a document count
per collection name. -/
def DbContents : Type := String → Nat

/-- A collection's full_name as pymongo reports it: "dbname.collname". -/
def fullName (dbname : Val) (coll : String) : String :=
  dbname.asStr ++ "." ++ coll

/-- str(DbAccess): "<DbAccess %r / %r>" % (client.host, db.name). -/
def dbAccessRepr (access : DbAccess) : String :=
  "<DbAccess " ++ access.clientArgs.host.asStr ++ " / "
    ++ access.dbname.asStr ++ ">"

/-- The dict built by setUp (tests.py lines 23-27): for each configured
collection, its full_name mapped to its count, kept only when the count is
positive.  The Python dict comprehension collapses duplicate names, which
deduplication of the name list reproduces. -/
def guardCounts (dbname : Val) (names : List String) (db : DbContents) :
    List (String × Nat) :=
  (names.dedup.filter (fun n => decide (0 < db n))).map
    (fun n => (fullName dbname n, db n))

/-- What setUp leaves bound on the test instance on success: the DbAccess
and the bound collections (all_collections). -/
structure MixinBound where
  db_access : DbAccess
  all_collections : List String
  deriving DecidableEq, Repr

/-- MongoTestMixin.setUp (tests.py lines 13-37): change_db to the secrets
test triple, connect, bind every collection named in collection_names,
compute the positive document counts, and when any are present abort via
self.fail with a message carrying str(self.db_access) and the counts.
setUp only reads the database, so the returned contents are the input
contents unchanged; the pair also carries the module state after its
change_db and the outcome. -/
def mixin_setUp (sec : Secrets) (oracle : ConnOracle)
    (collection_names : List String) (db : DbContents) (st : ModState) :
    (ModState × DbContents) × Except PyErr MixinBound :=
  let st1 := change_db sec.test_mongo_cn sec.test_mongo_dbname
    sec.test_mongo_ssl st
  match connect_db oracle st1 with
  | Except.error e => ((st1, db), Except.error e)
  | Except.ok access =>
    let counts := guardCounts access.dbname collection_names db
    if counts.length ≠ 0 then
      ((st1, db), Except.error (PyErr.testFailure (dbAccessRepr access) counts))
    else
      ((st1, db),
        Except.ok { db_access := access, all_collections := collection_names })

/-- MongoTestMixin.tearDown (tests.py lines 39-42): delete_many({}) on every
bound collection — every collection in all_collections becomes empty, and no
other collection is written. -/
def mixin_tearDown (all_collections : List String) (db : DbContents) :
    DbContents :=
  fun n => if n ∈ all_collections then 0 else db n

/-! ## Concrete fixtures used by counterexamples and witnesses -/

/-- A starting state: active target (localhost, app, secure) with the
settings module agreeing with it, plus a "P" environment defined by
cluster-style keys. -/
def stP : ModState :=
  { mongo_cn := Val.vstr "localhost"
    mongo_dbname := Val.vstr "app"
    mongo_ssl := Val.vbool true
    settings := fun k =>
      if k = "MONGO_CN" then some (Val.vstr "localhost")
      else if k = "MONGO_DBNAME" then some (Val.vstr "app")
      else if k = "MONGO_SSL" then some (Val.vbool true)
      else if k = "P_MONGO_CN" then some (Val.vstr "prod.cluster")
      else if k = "P_MONGO_DBNAME" then some (Val.vstr "app_prod")
      else none }

/-- A starting state whose "S" environment is defined only by the legacy
host-style key. -/
def stHost : ModState :=
  { mongo_cn := Val.vstr "localhost"
    mongo_dbname := Val.vstr "app"
    mongo_ssl := Val.vbool false
    settings := fun k =>
      if k = "MONGO_CN" then some (Val.vstr "localhost")
      else if k = "MONGO_DBNAME" then some (Val.vstr "app")
      else if k = "S_MONGO_HOST" then some (Val.vstr "stage.host")
      else if k = "S_MONGO_DBNAME" then some (Val.vstr "app_stage")
      else none }

/-- An oracle for which every connect and ping succeeds. -/
def oracleT : ConnOracle := fun _ _ => true

/-- An oracle for which the connect or ping step always fails. -/
def failOracle : ConnOracle := fun _ _ => false

/-- A scoped block that does nothing and returns 0. -/
def okBlock : Block Nat := fun _ s => (s, Except.ok 0)

/-- Test secrets pointing at a test host and database without ssl. -/
def secT : Secrets :=
  { test_mongo_cn := Val.vstr "test.host"
    test_mongo_dbname := Val.vstr "app_test"
    test_mongo_ssl := Val.vbool false }

/-- Database contents with one document in "analytics" and nothing else. -/
def dbOne : DbContents := fun n => if n = "analytics" then 1 else 0

/-- The DbAccess produced by connect_db after setUp redirects to secT. -/
def accessT : DbAccess :=
  { clientArgs :=
      { host := Val.vstr "test.host"
        w := "majority"
        connectNow := true
        ssl_cert_reqs := none }
    dbname := Val.vstr "app_test" }

/-- The DbAccess produced by connect_db on stP (secure target). -/
def accessP : DbAccess :=
  { clientArgs :=
      { host := Val.vstr "localhost"
        w := "majority"
        connectNow := true
        ssl_cert_reqs := some SslCertReq.CERT_NONE }
    dbname := Val.vstr "app" }

/-! ## Helper lemmas -/

/-- getattr only ever fails with an AttributeError naming its key. -/
theorem getattr_s_error (s : Settings) (key : String) (e : PyErr)
    (h : getattr_s s key = Except.error e) : e = PyErr.attributeError key := by
  unfold getattr_s at h
  cases hk : s key with
  | some v => rw [hk] at h; cases h
  | none => rw [hk] at h; injection h with h2; exact h2.symm

/-- The old-host snapshot only ever fails with AttributeError MONGO_HOST. -/
theorem snapshot_old_host_error (s : Settings) (e : PyErr)
    (h : snapshot_old_host s = Except.error e) :
    e = PyErr.attributeError "MONGO_HOST" := by
  unfold snapshot_old_host at h
  cases hc : s "MONGO_CN" with
  | some v => rw [hc] at h; cases h
  | none => rw [hc] at h; exact getattr_s_error s "MONGO_HOST" e h

/-- When both address keys are missing, prefix resolution raises
AttributeError on the host-style key. -/
theorem resolve_new_cn_missing (s : Settings) (pfx : String)
    (hcn : s (pfx ++ "_MONGO_CN") = none)
    (hh : s (pfx ++ "_MONGO_HOST") = none) :
    resolve_new_cn s pfx
      = Except.error (PyErr.attributeError (pfx ++ "_MONGO_HOST")) := by
  unfold resolve_new_cn getattr_s
  rw [hcn, hh]

/-- The guard's counts dict is nonempty exactly when some configured
collection holds a document. -/
theorem guardCounts_ne_nil (dbname : Val) (names : List String)
    (db : DbContents) :
    guardCounts dbname names db ≠ [] ↔ ∃ n, n ∈ names ∧ 0 < db n := by
  unfold guardCounts
  rw [ne_eq, List.map_eq_nil_iff]
  constructor
  · intro h
    match hl : names.dedup.filter (fun n => decide (0 < db n)) with
    | [] => exact absurd hl h
    | a :: t =>
      have ha : a ∈ names.dedup.filter (fun n => decide (0 < db n)) := by
        rw [hl]; exact List.mem_cons_self a t
      rcases List.mem_filter.mp ha with ⟨hmem, hpos⟩
      exact ⟨a, List.mem_dedup.mp hmem, by simpa using hpos⟩
  · rintro ⟨n, hn, hpos⟩ hnil
    have hmem : n ∈ names.dedup.filter (fun n => decide (0 < db n)) :=
      List.mem_filter.mpr ⟨List.mem_dedup.mpr hn, by simpa using hpos⟩
    rw [hnil] at hmem
    cases hmem

/-- Shape of mixin_setUp once the connect step is known to succeed. -/
theorem mixin_setUp_eq_of_connect_ok (sec : Secrets) (oracle : ConnOracle)
    (names : List String) (db : DbContents) (st : ModState) (access : DbAccess)
    (hok : connect_db oracle
      (change_db sec.test_mongo_cn sec.test_mongo_dbname sec.test_mongo_ssl st)
        = Except.ok access) :
    mixin_setUp sec oracle names db st
      = ((change_db sec.test_mongo_cn sec.test_mongo_dbname
            sec.test_mongo_ssl st, db),
         if (guardCounts access.dbname names db).length ≠ 0 then
           Except.error (PyErr.testFailure (dbAccessRepr access)
             (guardCounts access.dbname names db))
         else
           Except.ok { db_access := access, all_collections := names }) := by
  unfold mixin_setUp
  dsimp only
  rw [hok]
  dsimp only
  by_cases hc : (guardCounts access.dbname names db).length ≠ 0
  · rw [if_pos hc, if_pos hc]
  · rw [if_neg hc, if_neg hc]

/-! ## Claim theorems -/

/-- Claim C1 (code_bug evidence): db_access does not restore the prior
secure flag.  At a state whose active target is (localhost, app, secure),
db_access("P", ssl=False) with a successful connect and a block that
returns normally leaves mongo_ssl at the override value False on exit,
differing from the flag active immediately before entry, so get_active()
after exit is not the prior ConnectionTarget. -/
theorem C1_secure_flag_not_restored :
    stP.mongo_ssl = Val.vbool true ∧
    (run_db_access "P" (Val.vbool false) oracleT okBlock stP).2
      = Except.ok 0 ∧
    (run_db_access "P" (Val.vbool false) oracleT okBlock stP).1.mongo_ssl
      = Val.vbool false ∧
    (run_db_access "P" (Val.vbool false) oracleT okBlock stP).1.mongo_ssl
      ≠ stP.mongo_ssl := by
  decide

/-- Claim C2 (code_bug evidence): when the connect step fails inside
db_access, the finally block reads the never-bound local db_access and
raises UnboundLocalError; the restoring change_db is never reached, so the
override stays active and the ConnectionError is masked. -/
theorem C2_connect_failure_skips_restore :
    (run_db_access "P" (Val.vbool false) failOracle okBlock stP).2
      = Except.error (PyErr.unboundLocalError "db_access") ∧
    (run_db_access "P" (Val.vbool false) failOracle okBlock stP).2
      ≠ Except.error PyErr.connectionError ∧
    (run_db_access "P" (Val.vbool false) failOracle okBlock stP).1.mongo_cn
      = Val.vstr "prod.cluster" ∧
    (run_db_access "P" (Val.vbool false) failOracle okBlock stP).1.mongo_cn
      ≠ stP.mongo_cn := by
  decide

/-- Claim C3: when the settings module defines neither the cluster-style
key pfx_MONGO_CN nor the host-style key pfx_MONGO_HOST, db_access fails
with a missing-settings-key error (Python AttributeError, the spec's
ConfigurationError) and leaves the whole module state — the active
ConnectionTarget and the settings module — unchanged. -/
theorem C3_missing_address_keys (pfx : String) (sslv : Val)
    (oracle : ConnOracle) (block : Block Nat) (st : ModState)
    (hcn : st.settings (pfx ++ "_MONGO_CN") = none)
    (hhost : st.settings (pfx ++ "_MONGO_HOST") = none) :
    (run_db_access pfx sslv oracle block st).1 = st ∧
    ∃ k, (run_db_access pfx sslv oracle block st).2
      = Except.error (PyErr.attributeError k) := by
  unfold run_db_access
  cases h1 : snapshot_old_host st.settings with
  | error e =>
    refine ⟨rfl, "MONGO_HOST", ?_⟩
    rw [snapshot_old_host_error st.settings e h1]
  | ok old_host =>
    cases h2 : getattr_s st.settings "MONGO_DBNAME" with
    | error e =>
      refine ⟨rfl, "MONGO_DBNAME", ?_⟩
      rw [getattr_s_error st.settings "MONGO_DBNAME" e h2]
    | ok old_dbname =>
      rw [resolve_new_cn_missing st.settings pfx hcn hhost]
      exact ⟨rfl, pfx ++ "_MONGO_HOST", rfl⟩

/-- Witness for C3: at a state defining no "Q"-environment keys, db_access
leaves the state unchanged and raises a missing-key error. -/
theorem C3_missing_address_keys_witness :
    (run_db_access "Q" (Val.vbool false) oracleT okBlock stP).1 = stP ∧
    ∃ k, (run_db_access "Q" (Val.vbool false) oracleT okBlock stP).2
      = Except.error (PyErr.attributeError k) :=
  C3_missing_address_keys "Q" (Val.vbool false) oracleT okBlock stP
    (by decide) (by decide)

/-- Claim C4: address resolution for a prefix falls back to the host-style
key when the cluster-style key is absent, and uses the cluster-style key
whenever it is present. -/
theorem C4_resolution_precedence (s : Settings) (pfx : String) (v w : Val) :
    (s (pfx ++ "_MONGO_CN") = none → s (pfx ++ "_MONGO_HOST") = some v →
      resolve_new_cn s pfx = Except.ok v) ∧
    (s (pfx ++ "_MONGO_CN") = some w → resolve_new_cn s pfx = Except.ok w) := by
  constructor
  · intro h1 h2
    unfold resolve_new_cn getattr_s
    rw [h1, h2]
  · intro h
    unfold resolve_new_cn
    rw [h]

/-- Witness for C4: the "S" environment of stHost has only the host-style
key and resolves to it; the "P" environment of stP has the cluster-style
key and resolves to it. -/
theorem C4_resolution_precedence_witness :
    resolve_new_cn stHost.settings "S" = Except.ok (Val.vstr "stage.host") ∧
    resolve_new_cn stP.settings "P" = Except.ok (Val.vstr "prod.cluster") :=
  ⟨(C4_resolution_precedence stHost.settings "S" (Val.vstr "stage.host")
      (Val.vstr "stage.host")).1 (by decide) (by decide),
   (C4_resolution_precedence stP.settings "P" (Val.vstr "prod.cluster")
      (Val.vstr "prod.cluster")).2 (by decide)⟩

/-- Claim C5: once the connect step of MongoTestMixin.setUp succeeds, setUp
aborts with the fatal testFailure — carrying str(self.db_access) and the
offending per-collection counts — exactly when some collection named in
collection_names has a nonzero document count; otherwise it returns the
bound access and collections; and setUp never mutates the database
contents, so the abort happens before any mutating test logic. -/
theorem C5_guard_abort_iff_nonempty (sec : Secrets) (oracle : ConnOracle)
    (names : List String) (db : DbContents) (st : ModState) (access : DbAccess)
    (hok : connect_db oracle
      (change_db sec.test_mongo_cn sec.test_mongo_dbname sec.test_mongo_ssl st)
        = Except.ok access) :
    ((∃ n, n ∈ names ∧ 0 < db n) ↔
      (mixin_setUp sec oracle names db st).2
        = Except.error (PyErr.testFailure (dbAccessRepr access)
            (guardCounts access.dbname names db))) ∧
    ((¬ ∃ n, n ∈ names ∧ 0 < db n) →
      (mixin_setUp sec oracle names db st).2
        = Except.ok { db_access := access, all_collections := names }) ∧
    (mixin_setUp sec oracle names db st).1.2 = db := by
  rw [mixin_setUp_eq_of_connect_ok sec oracle names db st access hok]
  by_cases hc : (guardCounts access.dbname names db).length ≠ 0
  · rw [if_pos hc]
    have hne : guardCounts access.dbname names db ≠ [] := by
      intro h
      exact hc (by rw [h]; rfl)
    have hex := (guardCounts_ne_nil access.dbname names db).mp hne
    exact ⟨⟨fun _ => rfl, fun _ => hex⟩, fun hnot => absurd hex hnot, rfl⟩
  · rw [if_neg hc]
    have hnil : guardCounts access.dbname names db = [] := by
      rcases List.eq_nil_or_concat (guardCounts access.dbname names db)
        with h | ⟨l, a, h⟩
      · exact h
      · exact absurd (by rw [h]; simp) hc
    have hnone : ¬ ∃ n, n ∈ names ∧ 0 < db n := fun hex =>
      (guardCounts_ne_nil access.dbname names db).mpr hex hnil
    refine ⟨⟨fun hex => absurd hex hnone, fun h => ?_⟩, fun _ => rfl, rfl⟩
    cases h

/-- Witness for C5: with one document in the configured "analytics"
collection, setUp aborts with the fatal testFailure carrying the counts. -/
theorem C5_guard_abort_iff_nonempty_witness :
    (mixin_setUp secT oracleT ["analytics"] dbOne stP).2
      = Except.error (PyErr.testFailure (dbAccessRepr accessT)
          (guardCounts accessT.dbname ["analytics"] dbOne)) :=
  ((C5_guard_abort_iff_nonempty secT oracleT ["analytics"] dbOne stP accessT
      (by decide)).1).mp ⟨"analytics", by decide, by decide⟩

/-- Claim C6: change_db replaces all three fields of the active
ConnectionTarget together with the values it was given, and writes the
same three values back into the settings module under MONGO_HOST,
MONGO_DBNAME and MONGO_SSL. -/
theorem C6_change_db_replaces_and_writes_back (cn dbname sslv : Val)
    (st : ModState) :
    (change_db cn dbname sslv st).mongo_cn = cn ∧
    (change_db cn dbname sslv st).mongo_dbname = dbname ∧
    (change_db cn dbname sslv st).mongo_ssl = sslv ∧
    (change_db cn dbname sslv st).settings "MONGO_HOST" = some cn ∧
    (change_db cn dbname sslv st).settings "MONGO_DBNAME" = some dbname ∧
    (change_db cn dbname sslv st).settings "MONGO_SSL" = some sslv := by
  refine ⟨rfl, rfl, rfl, ?_, ?_, ?_⟩
  · show (if ("MONGO_HOST" : String) = "MONGO_SSL" then some sslv
      else if ("MONGO_HOST" : String) = "MONGO_HOST" then some cn
      else if ("MONGO_HOST" : String) = "MONGO_DBNAME" then some dbname
      else st.settings "MONGO_HOST") = some cn
    rw [if_neg (by decide), if_pos rfl]
  · show (if ("MONGO_DBNAME" : String) = "MONGO_SSL" then some sslv
      else if ("MONGO_DBNAME" : String) = "MONGO_HOST" then some cn
      else if ("MONGO_DBNAME" : String) = "MONGO_DBNAME" then some dbname
      else st.settings "MONGO_DBNAME") = some dbname
    rw [if_neg (by decide), if_neg (by decide), if_pos rfl]
  · show (if ("MONGO_SSL" : String) = "MONGO_SSL" then some sslv
      else if ("MONGO_SSL" : String) = "MONGO_HOST" then some cn
      else if ("MONGO_SSL" : String) = "MONGO_DBNAME" then some dbname
      else st.settings "MONGO_SSL") = some sslv
    rw [if_pos rfl]

/-- Claim C7: change_db writes only the keys MONGO_SSL, MONGO_HOST and
MONGO_DBNAME — every other settings key, MONGO_CN in particular, keeps its
prior value — so when MONGO_CN is defined, the old-host snapshot a later
db_access takes reads the stale MONGO_CN value, not the address change_db
just installed. -/
theorem C7_change_db_never_writes_mongo_cn (cn dbname sslv v : Val)
    (st : ModState) (k : String)
    (h1 : k ≠ "MONGO_SSL") (h2 : k ≠ "MONGO_HOST") (h3 : k ≠ "MONGO_DBNAME")
    (hcn : st.settings "MONGO_CN" = some v) (hne : v ≠ cn) :
    (change_db cn dbname sslv st).settings k = st.settings k ∧
    (change_db cn dbname sslv st).settings "MONGO_CN" = some v ∧
    snapshot_old_host (change_db cn dbname sslv st).settings = Except.ok v ∧
    snapshot_old_host (change_db cn dbname sslv st).settings
      ≠ Except.ok (change_db cn dbname sslv st).mongo_cn := by
  have hframe : (change_db cn dbname sslv st).settings k = st.settings k := by
    show (if k = "MONGO_SSL" then some sslv
      else if k = "MONGO_HOST" then some cn
      else if k = "MONGO_DBNAME" then some dbname
      else st.settings k) = st.settings k
    rw [if_neg h1, if_neg h2, if_neg h3]
  have hcnkeep : (change_db cn dbname sslv st).settings "MONGO_CN" = some v := by
    show (if ("MONGO_CN" : String) = "MONGO_SSL" then some sslv
      else if ("MONGO_CN" : String) = "MONGO_HOST" then some cn
      else if ("MONGO_CN" : String) = "MONGO_DBNAME" then some dbname
      else st.settings "MONGO_CN") = some v
    rw [if_neg (by decide), if_neg (by decide), if_neg (by decide), hcn]
  have hsnap : snapshot_old_host (change_db cn dbname sslv st).settings
      = Except.ok v := by
    unfold snapshot_old_host
    rw [hcnkeep]
  refine ⟨hframe, hcnkeep, hsnap, ?_⟩
  rw [hsnap]
  intro h
  injection h with h4
  exact hne h4

/-- Witness for C7: after change_db installs "moved.host" on stP, settings
keeps MONGO_CN = "localhost" and the snapshot reads the stale value. -/
theorem C7_change_db_never_writes_mongo_cn_witness :
    (change_db (Val.vstr "moved.host") (Val.vstr "app2") (Val.vbool false)
      stP).settings "MONGO_CN" = stP.settings "MONGO_CN" ∧
    (change_db (Val.vstr "moved.host") (Val.vstr "app2") (Val.vbool false)
      stP).settings "MONGO_CN" = some (Val.vstr "localhost") ∧
    snapshot_old_host (change_db (Val.vstr "moved.host") (Val.vstr "app2")
      (Val.vbool false) stP).settings = Except.ok (Val.vstr "localhost") ∧
    snapshot_old_host (change_db (Val.vstr "moved.host") (Val.vstr "app2")
      (Val.vbool false) stP).settings
      ≠ Except.ok (change_db (Val.vstr "moved.host") (Val.vstr "app2")
          (Val.vbool false) stP).mongo_cn :=
  C7_change_db_never_writes_mongo_cn (Val.vstr "moved.host")
    (Val.vstr "app2") (Val.vbool false) (Val.vstr "localhost") stP "MONGO_CN"
    (by decide) (by decide) (by decide) (by decide) (by decide)

/-- Claim C8: the transport-security argument connect_db passes is exactly
ssl.CERT_NONE when the active secure flag is true and absent (None) when it
is false; under neither value of the flag is certificate verification
requested, matching the spec's constraint. -/
theorem C8_cert_reqs_mapping (b : Bool) (oracle : ConnOracle) (st : ModState)
    (access : DbAccess) (hok : connect_db oracle st = Except.ok access) :
    access.clientArgs.ssl_cert_reqs = ssl_req_of st.mongo_ssl ∧
    ssl_req_of (Val.vbool b)
      = (if b then some SslCertReq.CERT_NONE else none) ∧
    requestsCertVerification (ssl_req_of (Val.vbool b)) = false := by
  refine ⟨?_, rfl, ?_⟩
  · unfold connect_db at hok
    dsimp only at hok
    split at hok
    · injection hok with h
      rw [← h]
    · cases hok
  · cases b <;> rfl

/-- Witness for C8: on stP (secure flag true) connect succeeds with
ssl_cert_reqs = CERT_NONE, and neither flag value requests verification. -/
theorem C8_cert_reqs_mapping_witness :
    accessP.clientArgs.ssl_cert_reqs = ssl_req_of stP.mongo_ssl ∧
    ssl_req_of (Val.vbool false)
      = (if false then some SslCertReq.CERT_NONE else none) ∧
    requestsCertVerification (ssl_req_of (Val.vbool false)) = false :=
  C8_cert_reqs_mapping false oracleT stP accessP (by decide)

/-- Claim C9: production_access is db_access applied to the prefix
"PRODUCTION" with ssl True: for every oracle, scoped block and starting
state it yields the same DbAccess to the block and produces the same final
state and outcome as the spec's with_environment("PRODUCTION", true). -/
theorem C9_production_access_equiv (α : Type) (oracle : ConnOracle)
    (block : Block α) (st : ModState) :
    run_production_access oracle block st
      = spec_with_production oracle block st := rfl

/-- Claim C10: tearDown empties exactly the bound collections — every
collection in all_collections ends with zero documents, every other
collection keeps its contents — and setUp leaves the database contents
untouched, so the mixin only ever mutates collections named in
collection_names. -/
theorem C10_mixin_touches_only_bound (sec : Secrets) (oracle : ConnOracle)
    (names : List String) (db : DbContents) (st : ModState) (n : String) :
    (n ∈ names → mixin_tearDown names db n = 0) ∧
    (n ∉ names → mixin_tearDown names db n = db n) ∧
    (mixin_setUp sec oracle names db st).1.2 = db := by
  refine ⟨?_, ?_, ?_⟩
  · intro h
    show (if n ∈ names then 0 else db n) = 0
    rw [if_pos h]
  · intro h
    show (if n ∈ names then 0 else db n) = db n
    rw [if_neg h]
  · unfold mixin_setUp
    dsimp only
    cases connect_db oracle
      (change_db sec.test_mongo_cn sec.test_mongo_dbname sec.test_mongo_ssl st) with
    | error e => rfl
    | ok access =>
      dsimp only
      by_cases hc : (guardCounts access.dbname names db).length ≠ 0
      · rw [if_pos hc]
      · rw [if_neg hc]

/-- Witness for C10: with "analytics" bound, tearDown empties it, leaves
"users" alone, and setUp did not change the contents. -/
theorem C10_mixin_touches_only_bound_witness :
    mixin_tearDown ["analytics"] dbOne "analytics" = 0 ∧
    mixin_tearDown ["analytics"] dbOne "users" = dbOne "users" ∧
    (mixin_setUp secT oracleT ["analytics"] dbOne stP).1.2 = dbOne :=
  ⟨(C10_mixin_touches_only_bound secT oracleT ["analytics"] dbOne stP
      "analytics").1 (by decide),
   (C10_mixin_touches_only_bound secT oracleT ["analytics"] dbOne stP
      "users").2.1 (by decide),
   (C10_mixin_touches_only_bound secT oracleT ["analytics"] dbOne stP
      "users").2.2⟩
